import Mathlib

/-!
# Verification of the WebSocket connection manager (`useWebSocket.ts`)

This file gives a shallow embedding of the reusable WebSocket hook
`src/frontend/src/hooks/useWebSocket.ts` — the connection manager that backs the
log viewer — and proves (or refutes) the specified properties of its
connect/disconnect lifecycle, retry policy, message handling and send path.

The hook is single-threaded and event-driven, so it is modelled as a state
machine: the hook's React state and refs form a `HookState`, the browser
`WebSocket` objects ever created by the hook form a world of sockets
(`Nat → Option SockState`, keyed by creation index), and every operation —
consumer calls (`connect`, `disconnect`, `sendMessage`) as well as transport
events (`onopen`, `onmessage`, `onerror`, `onclose`) and the retry-timer
callback — is a pure `step` on the combined `SysState` that also emits the
externally visible `Output`s (consumer callbacks, transport writes/closes).

JavaScript dynamic values flowing through the handlers are modelled by
`JsonVal`; `JSON.parse` is a platform built-in, so an inbound frame carries its
raw text together with the parse outcome (`Frame.parsed = none` when
`JSON.parse` throws).  JavaScript truthiness (the `||` defaulting used by the
message handler) is modelled by `truthy`.
-/

namespace WSHook

/-- JSON-like dynamic values, as produced by `JSON.parse`. -/
inductive JsonVal : Type where
  | null : JsonVal
  | bool : Bool → JsonVal
  | num : Int → JsonVal
  | str : String → JsonVal
  | arr : List JsonVal → JsonVal
  | obj : List (String × JsonVal) → JsonVal

/-- JavaScript truthiness of a `JsonVal` (`null`, `false`, `0` and `""` are
falsy; every object and array is truthy). -/
def truthy : JsonVal → Bool
  | .null => false
  | .bool b => b
  | .num n => n != 0
  | .str s => s != ""
  | .arr _ => true
  | .obj _ => true

/-- First-match association-list lookup (JS property access on a parsed
object; `JSON.parse` never produces duplicate keys). -/
def lookupField : List (String × JsonVal) → String → Option JsonVal
  | [], _ => none
  | (k', v) :: fs, k => if k' == k then some v else lookupField fs k

/-- JS property access `v.k` on a non-null value: a field of an object,
`undefined` (`none`) on every other value.  Access on `null` throws and is
handled separately in `processFrame`. -/
def getField : JsonVal → String → Option JsonVal
  | .obj fs, k => lookupField fs k
  | _, _ => none

/-- JS `a || b` where `a` may be `undefined` (`none`): yields `a` when `a` is
defined and truthy, otherwise `b`. -/
def jsOrD (v : Option JsonVal) (d : JsonVal) : JsonVal :=
  match v with
  | some w => if truthy w then w else d
  | none => d

/-- Escape a string for inclusion in JSON text (quote and backslash). -/
def jsonEscape (s : String) : String :=
  String.join (s.toList.map fun c =>
    if c = '\x22' then "\\\x22" else if c = '\\' then "\\\\" else String.singleton c)

mutual

/-- Model of `JSON.stringify` on the modelled dynamic values. -/
def stringify : JsonVal → String
  | .null => "null"
  | .bool true => "true"
  | .bool false => "false"
  | .num n => toString n
  | .str s => "\x22" ++ jsonEscape s ++ "\x22"
  | .arr xs => "[" ++ stringifyArr xs ++ "]"
  | .obj fs => "\x7b" ++ stringifyObj fs ++ "\x7d"

/-- Comma-separated serialization of array elements. -/
def stringifyArr : List JsonVal → String
  | [] => ""
  | [x] => stringify x
  | x :: xs => stringify x ++ "," ++ stringifyArr xs

/-- Comma-separated serialization of object fields. -/
def stringifyObj : List (String × JsonVal) → String
  | [] => ""
  | [(k, v)] => "\x22" ++ jsonEscape k ++ "\x22:" ++ stringify v
  | (k, v) :: fs => "\x22" ++ jsonEscape k ++ "\x22:" ++ stringify v ++ "," ++ stringifyObj fs

end

/-- The structured message delivered to the consumer (`WebSocketMessage` in the
source: `type`, `data`, `timestamp`).  All three fields hold dynamic values. -/
structure WebSocketMessage where
  type : JsonVal
  data : JsonVal
  timestamp : JsonVal

/-- One inbound text frame: the raw text together with the outcome of
`JSON.parse` on it (`none` when parsing throws). -/
structure Frame where
  text : String
  parsed : Option JsonVal

/-- The `WebSocket.readyState` phases. -/
inductive ReadyState : Type where
  | connecting | opened | closing | closed
deriving DecidableEq

/-- The world-side state of one `WebSocket` instance created by the hook:
its ready state and whether its `close` event has already fired (a socket
fires `close` at most once). -/
structure SockState where
  readyState : ReadyState
  closeFired : Bool
deriving DecidableEq

/-- The `connectionStatus` state of the hook:
`'disconnected' | 'connecting' | 'connected' | 'error'`. -/
inductive ConnStatus : Type where
  | disconnected | connecting | connected | error
deriving DecidableEq

/-- The React state and refs of one `useWebSocket` instance.
`wsCurrent` is `ws.current` (the creation index of the referenced socket),
`reconnectPending` models `reconnectTimeoutRef` holding a live timer,
`reconnectCount` is `reconnectCountRef`, `isMounted` is `isMountedRef`. -/
structure HookState where
  isConnected : Bool
  isConnecting : Bool
  error : Option String
  lastMessage : Option WebSocketMessage
  connectionStatus : ConnStatus
  wsCurrent : Option Nat
  reconnectPending : Bool
  reconnectCount : Nat
  isMounted : Bool

/-- Externally visible effects of one step: consumer callbacks
(`onOpen`/`onMessage`/`onError`/`onClose`) and transport commands
(`send`, `close(code, reason)`), tagged with the socket index. -/
inductive Output : Type where
  | cbOpen : Output
  | cbMessage : WebSocketMessage → Output
  | cbError : Output
  | cbClose : Bool → Output
  | wsSend : Nat → String → Output
  | wsCloseCmd : Nat → Nat → String → Output

/-- Hook configuration: the `url` argument (`null` modelled as `none`) and the
`reconnectAttempts` / `reconnectInterval` options.  The interval only fixes the
timer delay and plays no role in the untimed event semantics. -/
structure Config where
  url : Option String
  reconnectAttempts : Nat
  reconnectInterval : Nat

/-- Combined state: the hook instance plus every socket it ever created
(handlers are installed at creation and never removed), plus the count of
leaked retry timers.  A timer becomes leaked when the `onclose` handler
assigns a new `setTimeout` handle to `reconnectTimeoutRef` (line 142) without
calling `clearTimeout` on the previously referenced, still-live one: that
timer stays armed but unreferenced, so neither `disconnect()` nor the unmount
cleanup (which clear only the referenced handle) can reach it, and it still
fires its `connect()` callback later.  All timer callbacks are identical, so
the leaked ones are tracked as a count. -/
structure SysState where
  hook : HookState
  socks : Nat → Option SockState
  nextId : Nat
  leakedTimers : Nat

/-- Initial hook state (`useState` initialisers and refs at mount). -/
def initHook : HookState :=
  { isConnected := false, isConnecting := false, error := none, lastMessage := none
    connectionStatus := .disconnected, wsCurrent := none
    reconnectPending := false, reconnectCount := 0, isMounted := true }

/-- Initial system state: no sockets created yet. -/
def initState : SysState :=
  { hook := initHook, socks := fun _ => none, nextId := 0, leakedTimers := 0 }

/-- The `!url` guard at the top of `connect()` (null or empty string). -/
def urlFalsy : Option String → Bool
  | none => true
  | some u => u == ""

/-- The duplicate-transport guard of `connect()`:
`ws.current?.readyState === WebSocket.CONNECTING || === WebSocket.OPEN`. -/
def currentBusy (s : SysState) : Bool :=
  match s.hook.wsCurrent with
  | none => false
  | some g =>
    match s.socks g with
    | none => false
    | some st => st.readyState == .connecting || st.readyState == .opened

/-- The guard of `sendMessage`: `ws.current?.readyState === WebSocket.OPEN`. -/
def currentOpen (s : SysState) : Bool :=
  match s.hook.wsCurrent with
  | none => false
  | some g =>
    match s.socks g with
    | none => false
    | some st => st.readyState == .opened

/-- Effect of calling `close()` on a socket: a not-yet-closed socket moves to
`CLOSING`; calling `close()` on a closed socket is a no-op. -/
def closeRS : ReadyState → ReadyState
  | .closed => .closed
  | _ => .closing

/-- Point update of the socket world. -/
def setSock (f : Nat → Option SockState) (g : Nat) (st : SockState) :
    Nat → Option SockState :=
  fun n => if n = g then some st else f n

/-- Model of `connect()` (lines 55–157).  Here `ctorOk = false` models the
`new WebSocket(url)` constructor throwing, which lands in the `catch` block
after the three optimistic state updates.  The function itself performs no
`isMountedRef` check, and the auto-connect effect (lines 193–202) re-runs it
after a dependency-change cleanup has irreversibly set `isMountedRef` to
false, so `connect` can execute with the flag dead. -/
def connect (cfg : Config) (ctorOk : Bool) (s : SysState) : SysState × List Output :=
  if urlFalsy cfg.url || currentBusy s then (s, [])
  else if ctorOk then
    ({ s with
        hook := { s.hook with
          isConnecting := true
          connectionStatus := .connecting
          error := none
          wsCurrent := some s.nextId }
        socks := setSock s.socks s.nextId ⟨.connecting, false⟩
        nextId := s.nextId + 1 }, [])
  else
    ({ s with hook := { s.hook with
          isConnecting := false
          connectionStatus := .error
          error := some "Failed to create WebSocket connection" } }, [])

/-- World effect of `ws.current.close(...)`: the referenced socket (if any)
moves towards closed; all other sockets are untouched. -/
def closeCurrentSocks (s : SysState) : Nat → Option SockState :=
  match s.hook.wsCurrent with
  | none => s.socks
  | some g =>
    match s.socks g with
    | none => s.socks
    | some st => setSock s.socks g ⟨closeRS st.readyState, st.closeFired⟩

/-- The `close(1000, 'Intentional disconnect')` command issued when a
transport reference is held. -/
def closeCurrentOuts (s : SysState) : List Output :=
  match s.hook.wsCurrent with
  | none => []
  | some g => [Output.wsCloseCmd g 1000 "Intentional disconnect"]

/-- Model of `disconnect()` (lines 159–175): `clearTimeout` on the currently
referenced retry timer handle (only that one — leaked timers are untouched),
`close(1000, 'Intentional disconnect')` the referenced transport (if any) and
null the reference, then reset the connection state and the retry counter. -/
def disconnect (s : SysState) : SysState × List Output :=
  ({ s with
      hook := { s.hook with
        isConnected := false
        isConnecting := false
        connectionStatus := .disconnected
        error := none
        wsCurrent := none
        reconnectPending := false
        reconnectCount := 0 }
      socks := closeCurrentSocks s }, closeCurrentOuts s)

/-- Model of `typeof message === 'string' ? message : JSON.stringify(message)`. -/
def serializeMessage : JsonVal → String
  | .str t => t
  | m => stringify m

/-- Model of `sendMessage(message)` (lines 177–190).  Here `sendThrows = true` models the
try-block throwing at `ws.current.send(...)`; the exception is caught and
reported as `'Failed to send message'`. -/
def sendMessage (m : JsonVal) (sendThrows : Bool) (s : SysState) :
    SysState × List Output :=
  if currentOpen s then
    if sendThrows then
      ({ s with hook := { s.hook with error := some "Failed to send message" } }, [])
    else
      match s.hook.wsCurrent with
      | some g => (s, [Output.wsSend g (serializeMessage m)])
      | none => (s, [])
  else
    ({ s with hook := { s.hook with
          error := some "Cannot send message: not connected" } }, [])

/-- The `open` event on socket `g` (only a `CONNECTING` socket can open; the
transport reaches `OPEN` before the handler runs).  Handler: lines 67–78. -/
def onopen (g : Nat) (s : SysState) : SysState × List Output :=
  match s.socks g with
  | none => (s, [])
  | some st =>
    if st.readyState == .connecting then
      let s1 : SysState := { s with socks := setSock s.socks g ⟨.opened, st.closeFired⟩ }
      if s.hook.isMounted then
        ({ s1 with hook := { s1.hook with
              isConnected := true
              isConnecting := false
              connectionStatus := .connected
              error := none
              reconnectCount := 0 } }, [Output.cbOpen])
      else (s1, [])
    else (s, [])

/-- The body of the `onmessage` handler (lines 83–106): parse failure is
wrapped into a generic structure; the delivered message is then assembled with
`||` defaults.  Property access on a frame that parsed to JSON `null` throws,
is caught by the outer `try` (line 104) and yields no message. -/
def processFrame (now : String) (f : Frame) : Option WebSocketMessage :=
  let messageData : JsonVal :=
    match f.parsed with
    | some v => v
    | none => .obj [("type", .str "message"), ("data", .str f.text),
                    ("timestamp", .str now)]
  match messageData with
  | .null => none
  | md =>
    some { type := jsOrD (getField md "type") (.str "message")
           data := jsOrD (getField md "data") md
           timestamp := jsOrD (getField md "timestamp") (.str now) }

/-- The `message` event on socket `g` carrying frame `f` at receipt time `now`
(messages are only delivered on an `OPEN` socket).  Handler: lines 80–107. -/
def onmessage (g : Nat) (f : Frame) (now : String) (s : SysState) :
    SysState × List Output :=
  match s.socks g with
  | none => (s, [])
  | some st =>
    if st.readyState == .opened && s.hook.isMounted then
      match processFrame now f with
      | some m =>
        ({ s with hook := { s.hook with lastMessage := some m } },
         [Output.cbMessage m])
      | none => (s, [])
    else (s, [])

/-- The `error` event on socket `g` (fired when the connection fails; the
connection is closed when it fires and the `close` event follows).
Handler: lines 109–119. -/
def onerror (g : Nat) (s : SysState) : SysState × List Output :=
  match s.socks g with
  | none => (s, [])
  | some st =>
    if st.readyState != .closed && !st.closeFired then
      let s1 : SysState := { s with socks := setSock s.socks g ⟨.closed, st.closeFired⟩ }
      if s.hook.isMounted then
        ({ s1 with hook := { s1.hook with
              error := some "WebSocket connection error"
              connectionStatus := .error
              isConnecting := false } }, [Output.cbError])
      else (s1, [])
    else (s, [])

/-- Leak bookkeeping for the `onclose` re-arm (line 142): the handler assigns
a fresh `setTimeout` handle to `reconnectTimeoutRef` without `clearTimeout`,
so a still-armed referenced timer becomes leaked at that moment. -/
def leakIfArmed (s : SysState) : Nat :=
  if s.hook.reconnectPending then s.leakedTimers + 1 else s.leakedTimers

/-- The `close` event on socket `g` with `wasClean` flag (fires at most once
per socket).  Handler: lines 121–148, including the retry scheduling.  When a
retry is scheduled, line 142 assigns the new `setTimeout` handle to
`reconnectTimeoutRef` without a `clearTimeout`: if the previously referenced
timer is still armed (`reconnectPending = true`) it is leaked — it stays live
but unreferenced (`leakedTimers` incremented, see `leakIfArmed`). -/
def onclose (cfg : Config) (g : Nat) (wasClean : Bool) (s : SysState) :
    SysState × List Output :=
  match s.socks g with
  | none => (s, [])
  | some st =>
    if !st.closeFired then
      let s1 : SysState := { s with socks := setSock s.socks g ⟨.closed, true⟩ }
      if s.hook.isMounted then
        let h1 : HookState := { s1.hook with
          isConnected := false
          isConnecting := false
          connectionStatus := if wasClean then .disconnected else .error
          error := if wasClean then s1.hook.error
                   else some "Connection lost unexpectedly" }
        if !wasClean && s.hook.reconnectCount < cfg.reconnectAttempts then
          ({ s1 with
              hook := { h1 with
                reconnectCount := h1.reconnectCount + 1
                reconnectPending := true }
              leakedTimers := leakIfArmed s }, [Output.cbClose wasClean])
        else ({ s1 with hook := h1 }, [Output.cbClose wasClean])
      else (s1, [])
    else (s, [])

/-- The referenced retry timer firing (lines 142–146): the pending timeout is
consumed (a timeout fires at most once; the ref keeps the now-expired handle,
on which a later `clearTimeout` is a no-op) and, if the mounted flag is still
set, `connect()` runs. -/
def timerFire (cfg : Config) (ctorOk : Bool) (s : SysState) : SysState × List Output :=
  if s.hook.reconnectPending then
    let s1 : SysState := { s with hook := { s.hook with reconnectPending := false } }
    if s.hook.isMounted then connect cfg ctorOk s1 else (s1, [])
  else (s, [])

/-- A leaked retry timer firing: its callback is the same
`if (isMountedRef.current) connect()` closure as the referenced timer's
(lines 142–146), but the timer itself is one that a later `onclose`
re-arm orphaned, so no `clearTimeout` ever reached it. -/
def leakedTimerFire (cfg : Config) (ctorOk : Bool) (s : SysState) :
    SysState × List Output :=
  if 0 < s.leakedTimers then
    let s1 : SysState := { s with leakedTimers := s.leakedTimers - 1 }
    if s.hook.isMounted then connect cfg ctorOk s1 else (s1, [])
  else (s, [])

/-- The effect cleanup (lines 198–201 and 206–214): `isMountedRef` drops
irreversibly, the *referenced* retry timer is cleared (leaked ones survive and
fire later into a dead flag) and the referenced transport closed.  The
cleanup runs both at real unmount — where React discards the `disconnect()`
state-setter calls, so only the ref and transport effects remain — and on
every dependency change of the auto-connect effect, after which the effect
body re-runs `connect()` with the flag already dead (see `connect`). -/
def unmountStep (s : SysState) : SysState × List Output :=
  ({ s with
      hook := { s.hook with
        isMounted := false
        reconnectPending := false
        wsCurrent := none }
      socks := closeCurrentSocks s }, closeCurrentOuts s)

/-- One event of the event loop: a call to one of the returned functions
(`connect` is also invoked by the auto-connect effect, including after a
cleanup has dropped `isMountedRef`, so it carries no mounted guard), a
transport event on a named socket (which fires on whichever socket it belongs
to, whether or not that socket is still the referenced one), the referenced
or a leaked retry timer, or the effect cleanup. -/
inductive Event : Type where
  | connect : Bool → Event
  | disconnect : Event
  | send : JsonVal → Bool → Event
  | wsOpen : Nat → Event
  | wsMessage : Nat → Frame → String → Event
  | wsError : Nat → Event
  | wsClose : Nat → Bool → Event
  | timerFire : Bool → Event
  | leakedTimerFire : Bool → Event
  | unmount : Event

/-- Interpretation of one event as a state transformer with outputs. -/
def step (cfg : Config) (e : Event) (s : SysState) : SysState × List Output :=
  match e with
  | .connect ok => connect cfg ok s
  | .disconnect => disconnect s
  | .send m thr => sendMessage m thr s
  | .wsOpen g => onopen g s
  | .wsMessage g f now => onmessage g f now s
  | .wsError g => onerror g s
  | .wsClose g wc => onclose cfg g wc s
  | .timerFire ok => timerFire cfg ok s
  | .leakedTimerFire ok => leakedTimerFire cfg ok s
  | .unmount => unmountStep s

/-- The state component of a step. -/
def stepS (cfg : Config) (e : Event) (s : SysState) : SysState := (step cfg e s).1

/-- Run a list of events. -/
def runEvents (cfg : Config) (es : List Event) (s : SysState) : SysState :=
  es.foldl (fun t e => stepS cfg e t) s

/-- States reachable from the initial state under some event sequence. -/
def Reachable (cfg : Config) (s : SysState) : Prop :=
  Relation.ReflTransGen (fun a b => ∃ e, stepS cfg e a = b) initState s

/-- Events that are an explicit consumer `connect()` call. -/
def Event.isConnect : Event → Bool
  | .connect _ => true
  | _ => false

/-- Events that are consumer lifecycle calls (`connect()` or `disconnect()`). -/
def Event.consumerCall : Event → Bool
  | .connect _ => true
  | .disconnect => true
  | _ => false

/-! ## Invariants of reachable states -/

@[simp] theorem setSock_apply (f : Nat → Option SockState) (g : Nat) (st : SockState)
    (n : Nat) : setSock f g st n = if n = g then some st else f n := rfl

/-- Structural invariant maintained by every step.  A `CONNECTING` socket is
always the freshly created referenced one; an `OPEN` socket is always the
referenced one; `connected` status while the mounted flag is alive implies the
referenced transport is open; and socket indices below `nextId` are the only
ones in use.  No relation between the `connecting` status and the transport
holds: after an effect cleanup kills the mounted flag, a re-run `connect()`
leaves the status `connecting` while its socket opens with a dead handler. -/
structure Inv (s : SysState) : Prop where
  conn_current : ∀ g st, s.socks g = some st → st.readyState = .connecting →
    s.hook.wsCurrent = some g
  open_current : ∀ g st, s.socks g = some st → st.readyState = .opened →
    s.hook.wsCurrent = some g
  connected_open : s.hook.connectionStatus = .connected → s.hook.isMounted = true →
    currentOpen s = true
  fresh : ∀ g, s.nextId ≤ g → s.socks g = none

theorem inv_init : Inv initState := by
  constructor <;> intros <;> simp_all [initState, initHook, currentOpen]

theorem busy_of_live (s : SysState) (g : Nat) (st : SockState)
    (hwc : s.hook.wsCurrent = some g) (hg : s.socks g = some st)
    (hl : st.readyState = .connecting ∨ st.readyState = .opened) :
    currentBusy s = true := by
  simp only [currentBusy, hwc, hg]
  rcases hl with h | h <;> simp [h]

theorem noconn_of_not_busy (s : SysState) (hinv : Inv s)
    (hb : currentBusy s = false) (g : Nat) (st : SockState)
    (hg : s.socks g = some st) : st.readyState ≠ .connecting := by
  intro hc
  have h := hinv.conn_current g st hg hc
  have := busy_of_live s g st h hg (Or.inl hc)
  rw [hb] at this
  exact Bool.noConfusion this

theorem noopen_of_not_busy (s : SysState) (hinv : Inv s)
    (hb : currentBusy s = false) (g : Nat) (st : SockState)
    (hg : s.socks g = some st) : st.readyState ≠ .opened := by
  intro hc
  have h := hinv.open_current g st hg hc
  have := busy_of_live s g st h hg (Or.inr hc)
  rw [hb] at this
  exact Bool.noConfusion this

theorem sock_lt_nextId (s : SysState) (hinv : Inv s) (g : Nat) (st : SockState)
    (hg : s.socks g = some st) : g < s.nextId := by
  by_contra h
  have := hinv.fresh g (Nat.le_of_not_lt h)
  rw [this] at hg
  exact Option.noConfusion hg

/-- The guard `currentOpen` only looks at `wsCurrent` and the socket world. -/
theorem currentOpen_hook (s : SysState) (h' : HookState)
    (hwc : h'.wsCurrent = s.hook.wsCurrent) :
    currentOpen { s with hook := h' } = currentOpen s := by
  unfold currentOpen
  simp only [hwc]

/-- Invariant transfer across a pure hook-state tweak that keeps the socket
world and the transport reference. -/
theorem inv_hookTweak (s : SysState) (h' : HookState) (hinv : Inv s)
    (hwc : h'.wsCurrent = s.hook.wsCurrent)
    (hco : h'.connectionStatus = .connected → h'.isMounted = true →
      currentOpen s = true) :
    Inv { s with hook := h' } := by
  constructor
  · intro g st hg hc
    have h := hinv.conn_current g st hg hc
    simp only [hwc]
    exact h
  · intro g st hg hc
    have h := hinv.open_current g st hg hc
    simp only [hwc]
    exact h
  · intro h1 h2
    rw [currentOpen_hook s h' hwc]
    exact hco h1 h2
  · exact hinv.fresh

theorem inv_connect (cfg : Config) (ok : Bool) (s : SysState) (hinv : Inv s) :
    Inv (WSHook.connect cfg ok s).1 := by
  unfold WSHook.connect
  by_cases hguard : (urlFalsy cfg.url || currentBusy s) = true
  · simp only [hguard, if_true]
    exact hinv
  · have hguard' : (urlFalsy cfg.url || currentBusy s) = false :=
      Bool.not_eq_true _ |>.mp hguard
    have hbusy : currentBusy s = false := by
      rcases Bool.or_eq_false_iff.mp hguard' with ⟨_, h⟩
      exact h
    simp only [hguard', Bool.false_eq_true, if_false]
    cases ok
    · simp only [Bool.false_eq_true, if_false]
      exact inv_hookTweak s _ hinv rfl (fun h1 _ => ConnStatus.noConfusion h1)
    · simp only [if_true]
      constructor
      · intro g st hg hc
        simp only [setSock_apply] at hg
        by_cases hgn : g = s.nextId
        · subst hgn
          rfl
        · rw [if_neg hgn] at hg
          exact absurd hc (noconn_of_not_busy s hinv hbusy g st hg)
      · intro g st hg hc
        simp only [setSock_apply] at hg
        by_cases hgn : g = s.nextId
        · subst hgn
          rfl
        · rw [if_neg hgn] at hg
          exact absurd hc (noopen_of_not_busy s hinv hbusy g st hg)
      · intro h1
        exact ConnStatus.noConfusion h1
      · intro g hle
        have hle' : s.nextId + 1 ≤ g := hle
        simp only [setSock_apply]
        rw [if_neg (by omega)]
        exact hinv.fresh g (by omega)

theorem closeRS_not_connecting (rs : ReadyState) : closeRS rs ≠ .connecting := by
  cases rs <;> simp [closeRS]

theorem closeRS_not_opened (rs : ReadyState) : closeRS rs ≠ .opened := by
  cases rs <;> simp [closeRS]

/-- A socket that is still live after `ws.current.close(...)` was untouched
by the close: it exists unchanged and is not the referenced one. -/
theorem closeCurrentSocks_live (s : SysState) (g : Nat) (st : SockState)
    (hg : closeCurrentSocks s g = some st)
    (hl : st.readyState = .connecting ∨ st.readyState = .opened) :
    s.socks g = some st ∧ s.hook.wsCurrent ≠ some g := by
  cases hwc : s.hook.wsCurrent with
  | none =>
    simp only [closeCurrentSocks, hwc] at hg
    exact ⟨hg, fun h => Option.noConfusion h⟩
  | some g0 =>
    cases hg0 : s.socks g0 with
    | none =>
      simp only [closeCurrentSocks, hwc, hg0] at hg
      refine ⟨hg, ?_⟩
      intro h
      have hgg : g0 = g := Option.some.inj h
      subst hgg
      rw [hg0] at hg
      exact Option.noConfusion hg
    | some st0 =>
      simp only [closeCurrentSocks, hwc, hg0, setSock_apply] at hg
      by_cases hgg : g = g0
      · rw [if_pos hgg] at hg
        have hst : st = ⟨closeRS st0.readyState, st0.closeFired⟩ := (Option.some.inj hg).symm
        subst hst
        rcases hl with h | h
        · exact absurd h (closeRS_not_connecting st0.readyState)
        · exact absurd h (closeRS_not_opened st0.readyState)
      · rw [if_neg hgg] at hg
        refine ⟨hg, ?_⟩
        intro h
        exact hgg (Option.some.inj h).symm

theorem closeCurrentSocks_none (s : SysState) (g : Nat) (hg : s.socks g = none) :
    closeCurrentSocks s g = none := by
  cases hwc : s.hook.wsCurrent with
  | none =>
    simp only [closeCurrentSocks, hwc]
    exact hg
  | some g0 =>
    cases hg0 : s.socks g0 with
    | none =>
      simp only [closeCurrentSocks, hwc, hg0]
      exact hg
    | some st0 =>
      simp only [closeCurrentSocks, hwc, hg0, setSock_apply]
      have hgg : ¬ g = g0 := by
        intro h
        subst h
        rw [hg] at hg0
        exact Option.noConfusion hg0
      rw [if_neg hgg]
      exact hg

theorem inv_disconnect (s : SysState) (hinv : Inv s) : Inv (disconnect s).1 := by
  constructor
  · intro g st hg hc
    have h := closeCurrentSocks_live s g st hg (Or.inl hc)
    exact absurd (hinv.conn_current g st h.1 hc) h.2
  · intro g st hg hc
    have h := closeCurrentSocks_live s g st hg (Or.inr hc)
    exact absurd (hinv.open_current g st h.1 hc) h.2
  · intro h1
    exact ConnStatus.noConfusion h1
  · intro g hle
    exact closeCurrentSocks_none s g (hinv.fresh g hle)

theorem inv_unmount (s : SysState) (hinv : Inv s) : Inv (unmountStep s).1 := by
  constructor
  · intro g st hg hc
    have h := closeCurrentSocks_live s g st hg (Or.inl hc)
    exact absurd (hinv.conn_current g st h.1 hc) h.2
  · intro g st hg hc
    have h := closeCurrentSocks_live s g st hg (Or.inr hc)
    exact absurd (hinv.open_current g st h.1 hc) h.2
  · intro _ h2
    exact Bool.noConfusion h2
  · intro g hle
    exact closeCurrentSocks_none s g (hinv.fresh g hle)

theorem inv_sendMessage (m : JsonVal) (thr : Bool) (s : SysState) (hinv : Inv s) :
    Inv (sendMessage m thr s).1 := by
  unfold sendMessage
  by_cases hop : currentOpen s = true
  · rw [if_pos hop]
    cases thr
    · simp only [Bool.false_eq_true, if_false]
      cases hwc : s.hook.wsCurrent
      · exact hinv
      · exact hinv
    · rw [if_pos rfl]
      exact inv_hookTweak s _ hinv rfl hinv.connected_open
  · rw [if_neg hop]
    exact inv_hookTweak s _ hinv rfl hinv.connected_open

/-- Invariant transfer when one existing socket is marked closed, the hook
state is tweaked without touching the transport reference, and the leaked
timer count takes any value. -/
theorem inv_closeSockWorld (s : SysState) (hinv : Inv s) (g : Nat) (cf : Bool)
    (h' : HookState) (L : Nat)
    (hwc : h'.wsCurrent = s.hook.wsCurrent)
    (hco : h'.connectionStatus = .connected → h'.isMounted = true →
      currentOpen { s with
                    hook := h'
                    socks := setSock s.socks g ⟨.closed, cf⟩
                    leakedTimers := L } = true)
    (hex : g < s.nextId) :
    Inv { s with
          hook := h'
          socks := setSock s.socks g ⟨.closed, cf⟩
          leakedTimers := L } := by
  constructor
  · intro g' st' hg' hc'
    simp only [setSock_apply] at hg'
    by_cases hgg : g' = g
    · rw [if_pos hgg] at hg'
      have hst : st' = ⟨.closed, cf⟩ := (Option.some.inj hg').symm
      subst hst
      exact absurd hc' (by intro h; exact ReadyState.noConfusion h)
    · rw [if_neg hgg] at hg'
      have h := hinv.conn_current g' st' hg' hc'
      simp only [hwc]
      exact h
  · intro g' st' hg' hc'
    simp only [setSock_apply] at hg'
    by_cases hgg : g' = g
    · rw [if_pos hgg] at hg'
      have hst : st' = ⟨.closed, cf⟩ := (Option.some.inj hg').symm
      subst hst
      exact absurd hc' (by intro h; exact ReadyState.noConfusion h)
    · rw [if_neg hgg] at hg'
      simp only [hwc]
      exact hinv.open_current g' st' hg' hc'
  · exact hco
  · intro g' hle
    have hle' : s.nextId ≤ g' := hle
    simp only [setSock_apply]
    rw [if_neg (by omega)]
    exact hinv.fresh g' hle'

theorem inv_onopen (g : Nat) (s : SysState) (hinv : Inv s) : Inv (onopen g s).1 := by
  cases hg : s.socks g with
  | none =>
    have he : (onopen g s).1 = s := by simp [onopen, hg]
    rw [he]
    exact hinv
  | some st =>
    by_cases hrs : st.readyState = .connecting
    · have hcur := hinv.conn_current g st hg hrs
      have hfr : ∀ g', s.nextId ≤ g' →
          setSock s.socks g ⟨.opened, st.closeFired⟩ g' = none := by
        intro g' hle
        have hlt := sock_lt_nextId s hinv g st hg
        simp only [setSock_apply]
        rw [if_neg (by omega)]
        exact hinv.fresh g' hle
      have hcc : ∀ g' st', setSock s.socks g ⟨.opened, st.closeFired⟩ g' = some st' →
          st'.readyState = .connecting → s.hook.wsCurrent = some g' := by
        intro g' st' hg' hc'
        simp only [setSock_apply] at hg'
        by_cases hgg : g' = g
        · rw [if_pos hgg] at hg'
          have hst : st' = ⟨.opened, st.closeFired⟩ := (Option.some.inj hg').symm
          subst hst
          exact absurd hc' (by intro h; exact ReadyState.noConfusion h)
        · rw [if_neg hgg] at hg'
          exact hinv.conn_current g' st' hg' hc'
      have hoc : ∀ g' st', setSock s.socks g ⟨.opened, st.closeFired⟩ g' = some st' →
          st'.readyState = .opened → s.hook.wsCurrent = some g' := by
        intro g' st' hg' hc'
        simp only [setSock_apply] at hg'
        by_cases hgg : g' = g
        · subst hgg
          exact hcur
        · rw [if_neg hgg] at hg'
          exact hinv.open_current g' st' hg' hc'
      by_cases hm : s.hook.isMounted = true
      · have he : (onopen g s).1 =
            { s with
                hook := { s.hook with
                  isConnected := true
                  isConnecting := false
                  connectionStatus := .connected
                  error := none
                  reconnectCount := 0 }
                socks := setSock s.socks g ⟨.opened, st.closeFired⟩ } := by
          simp [onopen, hg, hrs, hm]
        rw [he]
        refine ⟨hcc, hoc, ?_, hfr⟩
        intro _ _
        simp [currentOpen, hcur, setSock]
      · have hm' : s.hook.isMounted = false := Bool.not_eq_true _ |>.mp hm
        have he : (onopen g s).1 =
            { s with socks := setSock s.socks g ⟨.opened, st.closeFired⟩ } := by
          simp [onopen, hg, hrs, hm']
        rw [he]
        refine ⟨hcc, hoc, ?_, hfr⟩
        intro _ h2
        rw [hm'] at h2
        exact Bool.noConfusion h2
    · have hb : (st.readyState == ReadyState.connecting) = false := by simp [hrs]
      have he : (onopen g s).1 = s := by simp [onopen, hg, hb]
      rw [he]
      exact hinv

theorem inv_onmessage (g : Nat) (f : Frame) (now : String) (s : SysState)
    (hinv : Inv s) : Inv (onmessage g f now s).1 := by
  cases hg : s.socks g with
  | none =>
    have he : (onmessage g f now s).1 = s := by simp [onmessage, hg]
    rw [he]
    exact hinv
  | some st =>
    by_cases hgd : (st.readyState == ReadyState.opened && s.hook.isMounted) = true
    · cases hpf : processFrame now f with
      | none =>
        have he : (onmessage g f now s).1 = s := by simp [onmessage, hg, hgd, hpf]
        rw [he]
        exact hinv
      | some m =>
        have he : (onmessage g f now s).1 =
            { s with hook := { s.hook with lastMessage := some m } } := by
          simp [onmessage, hg, hgd, hpf]
        rw [he]
        exact inv_hookTweak s _ hinv rfl hinv.connected_open
    · have he : (onmessage g f now s).1 = s := by simp [onmessage, hg, hgd]
      rw [he]
      exact hinv

theorem inv_onerror (g : Nat) (s : SysState) (hinv : Inv s) : Inv (onerror g s).1 := by
  cases hg : s.socks g with
  | none =>
    have he : (onerror g s).1 = s := by simp [onerror, hg]
    rw [he]
    exact hinv
  | some st =>
    by_cases hgd : (st.readyState != ReadyState.closed && !st.closeFired) = true
    · have hlt := sock_lt_nextId s hinv g st hg
      by_cases hm : s.hook.isMounted = true
      · have he : (onerror g s).1 =
            { s with
                hook := { s.hook with
                  error := some "WebSocket connection error"
                  connectionStatus := .error
                  isConnecting := false }
                socks := setSock s.socks g ⟨.closed, st.closeFired⟩ } := by
          simp [onerror, hg, hgd, hm]
        rw [he]
        exact inv_closeSockWorld s hinv g st.closeFired _ s.leakedTimers rfl
          (fun h1 _ => ConnStatus.noConfusion h1) hlt
      · have hm' : s.hook.isMounted = false := Bool.not_eq_true _ |>.mp hm
        have he : (onerror g s).1 =
            { s with socks := setSock s.socks g ⟨.closed, st.closeFired⟩ } := by
          simp [onerror, hg, hgd, hm']
        rw [he]
        exact inv_closeSockWorld s hinv g st.closeFired s.hook s.leakedTimers rfl
          (fun _ h2 => by rw [hm'] at h2; exact Bool.noConfusion h2) hlt
    · have he : (onerror g s).1 = s := by simp [onerror, hg, hgd]
      rw [he]
      exact hinv

theorem inv_onclose (cfg : Config) (g : Nat) (wc : Bool) (s : SysState)
    (hinv : Inv s) : Inv (onclose cfg g wc s).1 := by
  cases hg : s.socks g with
  | none =>
    have he : (onclose cfg g wc s).1 = s := by simp [onclose, hg]
    rw [he]
    exact hinv
  | some st =>
    by_cases hcf : (!st.closeFired) = true
    · have hlt := sock_lt_nextId s hinv g st hg
      by_cases hm : s.hook.isMounted = true
      · cases wc with
        | true =>
          have he : (onclose cfg g true s).1 =
              { s with
                  hook := { s.hook with
                    isConnected := false
                    isConnecting := false
                    connectionStatus := .disconnected }
                  socks := setSock s.socks g ⟨.closed, true⟩ } := by
            simp [onclose, hg, hcf, hm]
          rw [he]
          exact inv_closeSockWorld s hinv g true _ s.leakedTimers rfl
            (fun h1 _ => ConnStatus.noConfusion h1) hlt
        | false =>
          by_cases hrc : s.hook.reconnectCount < cfg.reconnectAttempts
          · have he : (onclose cfg g false s).1 =
                { s with
                    hook := { s.hook with
                      isConnected := false
                      isConnecting := false
                      connectionStatus := .error
                      error := some "Connection lost unexpectedly"
                      reconnectCount := s.hook.reconnectCount + 1
                      reconnectPending := true }
                    socks := setSock s.socks g ⟨.closed, true⟩
                    leakedTimers := leakIfArmed s } := by
              simp [onclose, hg, hcf, hm, hrc]
            rw [he]
            exact inv_closeSockWorld s hinv g true _ (leakIfArmed s) rfl
              (fun h1 _ => ConnStatus.noConfusion h1) hlt
          · have he : (onclose cfg g false s).1 =
                { s with
                    hook := { s.hook with
                      isConnected := false
                      isConnecting := false
                      connectionStatus := .error
                      error := some "Connection lost unexpectedly" }
                    socks := setSock s.socks g ⟨.closed, true⟩ } := by
              simp [onclose, hg, hcf, hm, hrc]
            rw [he]
            exact inv_closeSockWorld s hinv g true _ s.leakedTimers rfl
              (fun h1 _ => ConnStatus.noConfusion h1) hlt
      · have hm' : s.hook.isMounted = false := Bool.not_eq_true _ |>.mp hm
        have he : (onclose cfg g wc s).1 =
            { s with socks := setSock s.socks g ⟨.closed, true⟩ } := by
          simp [onclose, hg, hcf, hm']
        rw [he]
        exact inv_closeSockWorld s hinv g true s.hook s.leakedTimers rfl
          (fun _ h2 => by rw [hm'] at h2; exact Bool.noConfusion h2) hlt
    · have he : (onclose cfg g wc s).1 = s := by simp [onclose, hg, hcf]
      rw [he]
      exact hinv

theorem inv_timerFire (cfg : Config) (ok : Bool) (s : SysState) (hinv : Inv s) :
    Inv (timerFire cfg ok s).1 := by
  by_cases hp : s.hook.reconnectPending = true
  · have hinv1 : Inv { s with hook := { s.hook with reconnectPending := false } } :=
      inv_hookTweak s _ hinv rfl hinv.connected_open
    by_cases hm : s.hook.isMounted = true
    · have he : (timerFire cfg ok s).1 =
          (connect cfg ok { s with hook := { s.hook with reconnectPending := false } }).1 := by
        simp [timerFire, hp, hm]
      rw [he]
      exact inv_connect cfg ok _ hinv1
    · have hm' : s.hook.isMounted = false := Bool.not_eq_true _ |>.mp hm
      have he : (timerFire cfg ok s).1 =
          { s with hook := { s.hook with reconnectPending := false } } := by
        simp [timerFire, hp, hm']
      rw [he]
      exact hinv1
  · have hp' : s.hook.reconnectPending = false := Bool.not_eq_true _ |>.mp hp
    have he : (timerFire cfg ok s).1 = s := by simp [timerFire, hp']
    rw [he]
    exact hinv

theorem inv_leakedTimerFire (cfg : Config) (ok : Bool) (s : SysState)
    (hinv : Inv s) : Inv (leakedTimerFire cfg ok s).1 := by
  by_cases hl : 0 < s.leakedTimers
  · have hinv1 : Inv { s with leakedTimers := s.leakedTimers - 1 } :=
      ⟨hinv.conn_current, hinv.open_current, hinv.connected_open, hinv.fresh⟩
    by_cases hm : s.hook.isMounted = true
    · have he : (leakedTimerFire cfg ok s).1 =
          (connect cfg ok { s with leakedTimers := s.leakedTimers - 1 }).1 := by
        simp [WSHook.leakedTimerFire, hl, hm]
      rw [he]
      exact inv_connect cfg ok _ hinv1
    · have hm' : s.hook.isMounted = false := Bool.not_eq_true _ |>.mp hm
      have he : (leakedTimerFire cfg ok s).1 =
          { s with leakedTimers := s.leakedTimers - 1 } := by
        simp [WSHook.leakedTimerFire, hl, hm']
      rw [he]
      exact hinv1
  · have he : (leakedTimerFire cfg ok s).1 = s := by
      simp [WSHook.leakedTimerFire, hl]
    rw [he]
    exact hinv

theorem inv_step (cfg : Config) (e : Event) (s : SysState) (hinv : Inv s) :
    Inv (stepS cfg e s) := by
  cases e with
  | connect ok => exact inv_connect cfg ok s hinv
  | disconnect => exact inv_disconnect s hinv
  | send m thr => exact inv_sendMessage m thr s hinv
  | wsOpen g => exact inv_onopen g s hinv
  | wsMessage g f now => exact inv_onmessage g f now s hinv
  | wsError g => exact inv_onerror g s hinv
  | wsClose g wc => exact inv_onclose cfg g wc s hinv
  | timerFire ok => exact inv_timerFire cfg ok s hinv
  | leakedTimerFire ok => exact inv_leakedTimerFire cfg ok s hinv
  | unmount => exact inv_unmount s hinv

theorem reachable_inv (cfg : Config) (s : SysState) (h : Reachable cfg s) : Inv s := by
  induction h with
  | refl => exact inv_init
  | tail _ hbc ih =>
    obtain ⟨e, he⟩ := hbc
    rw [← he]
    exact inv_step cfg e _ ih

/-- Every finite continuation of a reachable state is reachable. -/
theorem reachable_run (cfg : Config) (s : SysState) (hr : Reachable cfg s)
    (es : List Event) : Reachable cfg (runEvents cfg es s) := by
  induction es generalizing s with
  | nil => exact hr
  | cons e es ih => exact ih _ (Relation.ReflTransGen.tail hr ⟨e, rfl⟩)

/-! ## Supporting lemmas for the claims -/

/-- A socket with a live transport handle (`CONNECTING` or `OPEN`). -/
def LiveSock (t : SysState) (g : Nat) : Prop :=
  ∃ st, t.socks g = some st ∧
    (st.readyState = .connecting ∨ st.readyState = .opened)

theorem live_current (t : SysState) (hinv : Inv t) (g : Nat) (h : LiveSock t g) :
    t.hook.wsCurrent = some g := by
  obtain ⟨st, hg, hl⟩ := h
  rcases hl with h1 | h1
  · exact hinv.conn_current g st hg h1
  · exact hinv.open_current g st hg h1

theorem currentBusy_spec (s : SysState) (hb : currentBusy s = true) :
    ∃ g, s.hook.wsCurrent = some g ∧ LiveSock s g := by
  cases hwc : s.hook.wsCurrent with
  | none =>
    simp only [currentBusy, hwc] at hb
    exact Bool.noConfusion hb
  | some g =>
    cases hg : s.socks g with
    | none =>
      simp only [currentBusy, hwc, hg] at hb
      exact Bool.noConfusion hb
    | some st =>
      simp only [currentBusy, hwc, hg, Bool.or_eq_true, beq_iff_eq] at hb
      exact ⟨g, rfl, st, hg, hb⟩

theorem currentOpen_spec (s : SysState) (hb : currentOpen s = true) :
    ∃ g st, s.hook.wsCurrent = some g ∧ s.socks g = some st ∧
      st.readyState = .opened := by
  cases hwc : s.hook.wsCurrent with
  | none =>
    simp only [currentOpen, hwc] at hb
    exact Bool.noConfusion hb
  | some g =>
    cases hg : s.socks g with
    | none =>
      simp only [currentOpen, hwc, hg] at hb
      exact Bool.noConfusion hb
    | some st =>
      simp only [currentOpen, hwc, hg, beq_iff_eq] at hb
      exact ⟨g, st, rfl, hg, hb⟩

/-- Sample configuration: a log-stream target with the default retry options
(`reconnectAttempts = 3`, `reconnectInterval = 3000`). -/
def cfgW : Config := ⟨some "ws://localhost:8000/ws/logs/abc123", 3, 3000⟩

/-- Configuration with a `null` target. -/
def cfgN : Config := ⟨none, 3, 3000⟩

/-- Configuration with retry budget 1. -/
def cfgMax1 : Config := ⟨some "ws://localhost:8000/ws/logs/abc123", 1, 3000⟩

/-- Configuration with retry budget 0 (budget exhausted from the start). -/
def cfgMax0 : Config := ⟨some "ws://localhost:8000/ws/logs/abc123", 0, 3000⟩

/-! ## C1 — idempotent connect -/

/-- C1: for every valid target, a `connect()` call made while the referenced
transport is already `CONNECTING` or `OPEN` is a no-op; two consecutive
`connect()` calls without an intervening `disconnect()` behave like one
(the second is a no-op), and the resulting state holds exactly one live
transport handle.  Together with the reachability invariant this gives
"at most one underlying transport handle open per Connection". -/
theorem connect_idempotent (cfg : Config) (s : SysState)
    (hr : Reachable cfg s) (hu : urlFalsy cfg.url = false)
    (hm : s.hook.isMounted = true) :
    (∀ ok, currentBusy s = true → step cfg (.connect ok) s = (s, [])) ∧
    step cfg (.connect true) (stepS cfg (.connect true) s) =
      (stepS cfg (.connect true) s, []) ∧
    (∃ g, LiveSock (stepS cfg (.connect true) s) g ∧
      ∀ g', LiveSock (stepS cfg (.connect true) s) g' → g' = g) := by
  have hinv := reachable_inv cfg s hr
  have hinv1 : Inv (stepS cfg (.connect true) s) := inv_step cfg _ s hinv
  have hnoop : ∀ ok, currentBusy s = true → step cfg (.connect ok) s = (s, []) := by
    intro ok hb
    simp [step, hm, WSHook.connect, hu, hb]
  refine ⟨hnoop, ?_, ?_⟩
  · by_cases hb : currentBusy s = true
    · have h1 : stepS cfg (.connect true) s = s := by
        rw [stepS, hnoop true hb]
      rw [h1]
      exact hnoop true hb
    · have hb' : currentBusy s = false := Bool.not_eq_true _ |>.mp hb
      have h1 : stepS cfg (.connect true) s =
          { s with
              hook := { s.hook with
                isConnecting := true
                connectionStatus := .connecting
                error := none
                wsCurrent := some s.nextId }
              socks := setSock s.socks s.nextId ⟨.connecting, false⟩
              nextId := s.nextId + 1 } := by
        simp [stepS, step, hm, WSHook.connect, hu, hb']
      rw [h1]
      simp [step, hm, WSHook.connect, hu, currentBusy, setSock]
  · by_cases hb : currentBusy s = true
    · have h1 : stepS cfg (.connect true) s = s := by
        rw [stepS, hnoop true hb]
      rw [h1] at hinv1 ⊢
      obtain ⟨g, _, hlive⟩ := currentBusy_spec s hb
      refine ⟨g, hlive, fun g' h' => ?_⟩
      exact Option.some.inj
        ((live_current s hinv1 g' h').symm.trans (live_current s hinv1 g hlive))
    · have hb' : currentBusy s = false := Bool.not_eq_true _ |>.mp hb
      have h1 : stepS cfg (.connect true) s =
          { s with
              hook := { s.hook with
                isConnecting := true
                connectionStatus := .connecting
                error := none
                wsCurrent := some s.nextId }
              socks := setSock s.socks s.nextId ⟨.connecting, false⟩
              nextId := s.nextId + 1 } := by
        simp [stepS, step, hm, WSHook.connect, hu, hb']
      have hlive : LiveSock (stepS cfg (.connect true) s) s.nextId := by
        rw [h1]
        refine ⟨⟨.connecting, false⟩, ?_, Or.inl rfl⟩
        simp [setSock]
      refine ⟨s.nextId, hlive, fun g' h' => ?_⟩
      exact Option.some.inj
        ((live_current _ hinv1 g' h').symm.trans
          (live_current _ hinv1 s.nextId hlive))

/-- C1 witness: at the initial state (no transport yet) with the sample
target, the double-connect law and the uniqueness of the live handle hold. -/
theorem connect_idempotent_app :
    step cfgW (.connect true) (stepS cfgW (.connect true) initState) =
      (stepS cfgW (.connect true) initState, []) ∧
    ∃ g, LiveSock (stepS cfgW (.connect true) initState) g ∧
      ∀ g', LiveSock (stepS cfgW (.connect true) initState) g' → g' = g := by
  have h := connect_idempotent cfgW initState Relation.ReflTransGen.refl rfl rfl
  exact ⟨h.2.1, h.2.2⟩

/-! ## C7 — disconnect is idempotent but clears only the referenced timer -/

/-- State with one leaked retry timer: two connection attempts are each
cancelled by `disconnect()` while still connecting (`close()` on a
`CONNECTING` socket fails the connection, so its close event arrives later
with `wasClean = false`); socket 0's abnormal close then arms a first retry
timer, and socket 1's abnormal close arms a second one, overwriting the
reference and leaking the first. -/
def leakState : SysState :=
  runEvents cfgW
    [.connect true, .disconnect, .connect true, .disconnect,
     .wsClose 0 false, .wsClose 1 false] initState

/-- C7 counterexample: in `leakState` both a referenced and a leaked retry
timer are armed; `disconnect()` cancels only the referenced one, so a pending
retry timer survives the call and later fires `connect()`, driving the
connection back to Connecting without any consumer call — refuting "cancels
any pending retry timer". -/
theorem leaked_timer_survives_disconnect :
    leakState.hook.reconnectPending = true ∧
    leakState.leakedTimers = 1 ∧
    (stepS cfgW .disconnect leakState).leakedTimers = 1 ∧
    (runEvents cfgW [.disconnect, .leakedTimerFire true] leakState
      ).hook.connectionStatus = .connecting :=
  ⟨rfl, rfl, rfl, rfl⟩

/-- C7 (amended): `disconnect()` always succeeds and is idempotent: from any
state it resets the status to Disconnected, cancels the currently referenced
retry timer, zeroes the retry counter and clears the last error; it issues
`close(1000, 'Intentional disconnect')` exactly when a transport reference is
held, and calling it a second time is a complete no-op (same state, no
transport command, no callback fired), so `disconnect ∘ disconnect` has the
same observable effect as `disconnect`.  It does not cancel retry timers that
a later `onclose` re-arm leaked: their count is untouched. -/
theorem disconnect_idem (cfg : Config) (s : SysState) :
    step cfg .disconnect (stepS cfg .disconnect s) =
      (stepS cfg .disconnect s, []) ∧
    (stepS cfg .disconnect s).hook.connectionStatus = .disconnected ∧
    (stepS cfg .disconnect s).hook.reconnectPending = false ∧
    (stepS cfg .disconnect s).hook.reconnectCount = 0 ∧
    (stepS cfg .disconnect s).hook.error = none ∧
    (stepS cfg .disconnect s).leakedTimers = s.leakedTimers ∧
    (∀ g, s.hook.wsCurrent = some g →
      (step cfg .disconnect s).2 =
        [Output.wsCloseCmd g 1000 "Intentional disconnect"]) ∧
    (s.hook.wsCurrent = none → (step cfg .disconnect s).2 = []) := by
  refine ⟨rfl, rfl, rfl, rfl, rfl, rfl, ?_, ?_⟩
  · intro g hg
    simp [step, disconnect, closeCurrentOuts, hg]
  · intro hn
    simp [step, disconnect, closeCurrentOuts, hn]

/-- C7 witness: in a state holding transport 0 (after one `connect()`), the
first `disconnect()` issues the intentional close on socket 0 and the second
`disconnect()` is a no-op. -/
theorem disconnect_idem_app :
    (step cfgW .disconnect (stepS cfgW (.connect true) initState)).2 =
      [Output.wsCloseCmd 0 1000 "Intentional disconnect"] ∧
    step cfgW .disconnect
        (stepS cfgW .disconnect (stepS cfgW (.connect true) initState)) =
      (stepS cfgW .disconnect (stepS cfgW (.connect true) initState), []) := by
  have h := disconnect_idem cfgW (stepS cfgW (.connect true) initState)
  exact ⟨h.2.2.2.2.2.2.1 0 rfl, h.1⟩

/-! ## C9 — connect with a null or empty target is a total no-op -/

/-- C9: calling `connect()` when the target url is `null` or the empty string
returns immediately: the entire system state (status, retry counter, last
error, socket world) is unchanged and no output of any kind is produced. -/
theorem connect_null_url_noop (cfg : Config) (s : SysState) (ok : Bool)
    (hu : urlFalsy cfg.url = true) :
    step cfg (.connect ok) s = (s, []) := by
  simp [step, WSHook.connect, hu]

/-- C9 witness: with a `null` url, `connect()` at the initial state changes
nothing and emits nothing. -/
theorem connect_null_url_noop_app :
    step cfgN (.connect true) initState = (initState, []) :=
  connect_null_url_noop cfgN initState true rfl

/-! ## C4 — send outside Connected -/

/-- C4 counterexample trace: connect, open (socket 0), disconnect, reconnect,
open (socket 1); then the superseded socket 0 delivers its delayed clean-close
event, whose handler resets the status to Disconnected even though the fresh
socket 1 is still open. -/
def c4trace : List Event :=
  [.connect true, .wsOpen 0, .disconnect, .connect true, .wsOpen 1,
   .wsClose 0 true]

/-- The state reached by `c4trace`. -/
def c4state : SysState := runEvents cfgW c4trace initState

/-- C4 counterexample: in the reachable state `c4state` the lifecycle status
is Disconnected, yet `sendMessage` silently succeeds — it writes the payload
to the (still open) transport 1, reports no failure and leaves the state
untouched — contradicting the claim that `send()` in any state other than
Connected always yields a reported NotConnected failure and writes no data. -/
theorem send_succeeds_while_disconnected :
    c4state.hook.connectionStatus = .disconnected ∧
    (step cfgW (.send (.str "ping") false) c4state).1 = c4state ∧
    (step cfgW (.send (.str "ping") false) c4state).2 =
      [Output.wsSend 1 "ping"] :=
  ⟨rfl, rfl, rfl⟩

/-- State with the lifecycle status Connecting beside an open transport: the
auto-connect effect's cleanup runs on a dependency change (lines 198–201),
irreversibly killing `isMountedRef` while the component stays mounted; the
effect body then re-runs `connect()` (line 195), which opens a socket whose
`onopen` handler early-returns, so the status set by `connect()` is never
advanced past `connecting`. -/
def deadFlagState : SysState :=
  runEvents cfgW [.unmount, .connect true, .wsOpen 0] initState

/-- C4 (amended): `send()` yields the reported `'Cannot send message: not
connected'` failure, writes nothing and leaves everything else (including the
lifecycle status) unchanged exactly when the referenced transport is not open;
the lifecycle status is never consulted.  Each of the three non-Connected
statuses can coexist with an open transport — Disconnected and Error through
stale callbacks of a superseded transport, Connecting through a dead-flag
re-run of `connect()` — and `send()` then silently writes. -/
theorem send_not_connected (cfg : Config) (s : SysState) :
    (∀ m thr, currentOpen s = false →
      step cfg (.send m thr) s =
        ({ s with hook := { s.hook with
              error := some "Cannot send message: not connected" } }, [])) ∧
    (∀ m g, s.hook.wsCurrent = some g → currentOpen s = true →
      step cfg (.send m false) s =
        (s, [Output.wsSend g (serializeMessage m)])) ∧
    (Reachable cfgW deadFlagState ∧
      deadFlagState.hook.connectionStatus = .connecting ∧
      currentOpen deadFlagState = true ∧
      (step cfgW (.send (.str "hi") false) deadFlagState).2 =
        [Output.wsSend 0 "hi"]) := by
  refine ⟨?_, ?_, ?_, rfl, rfl, rfl⟩
  · intro m thr hop
    simp [step, sendMessage, hop]
  · intro m g hwc hop
    simp [step, sendMessage, hop, hwc]
  · exact reachable_run cfgW initState Relation.ReflTransGen.refl
      [.unmount, .connect true, .wsOpen 0]

/-- C4 witness: at the initial state (transport not open) a send reports the
NotConnected failure, writes nothing and only sets the error string. -/
theorem send_not_connected_app :
    step cfgW (.send (.str "hello") false) initState =
      ({ initState with hook := { initState.hook with
            error := some "Cannot send message: not connected" } }, []) :=
  (send_not_connected cfgW initState).1 (.str "hello") false rfl

/-! ## C10 — send while Connected -/

/-- The test `typeof message === 'string'` is decided by the `JsonVal.str` shape:
a non-string payload is serialized with `JSON.stringify`. -/
theorem serializeMessage_of_not_str (m : JsonVal) (h : ∀ u, m ≠ .str u) :
    serializeMessage m = stringify m := by
  cases m with
  | str u => exact absurd rfl (h u)
  | null => rfl
  | bool b => rfl
  | num n => rfl
  | arr xs => rfl
  | obj fs => rfl

/-- C10: while the hook is Connected (mounted, status `connected`), `send()`
writes string payloads verbatim and every other payload as its
`JSON.stringify` text to the referenced transport without touching the state;
if the try-block throws during the send, the exception is caught and reported
as `'Failed to send message'`, nothing is written, and the lifecycle status
remains Connected. -/
theorem send_connected_behavior (cfg : Config) (s : SysState)
    (hr : Reachable cfg s) (hm : s.hook.isMounted = true)
    (hst : s.hook.connectionStatus = .connected) :
    ∃ g, s.hook.wsCurrent = some g ∧
      (∀ t, step cfg (.send (.str t) false) s = (s, [Output.wsSend g t])) ∧
      (∀ m, step cfg (.send m false) s =
        (s, [Output.wsSend g (serializeMessage m)])) ∧
      (∀ m, step cfg (.send m true) s =
        ({ s with hook := { s.hook with
              error := some "Failed to send message" } }, [])) ∧
      (∀ m, (stepS cfg (.send m true) s).hook.connectionStatus = .connected) := by
  have hinv := reachable_inv cfg s hr
  have hop : currentOpen s = true := hinv.connected_open hst hm
  obtain ⟨g, st, hwc, hg, hrs⟩ := currentOpen_spec s hop
  refine ⟨g, hwc, ?_, ?_, ?_, ?_⟩
  · intro t
    simp [step, sendMessage, hop, hwc, serializeMessage]
  · intro m
    simp [step, sendMessage, hop, hwc]
  · intro m
    simp [step, sendMessage, hop]
  · intro m
    have he : stepS cfg (.send m true) s =
        { s with hook := { s.hook with
            error := some "Failed to send message" } } := by
      simp [stepS, step, sendMessage, hop]
    rw [he]
    exact hst

/-- C10 witness: in the connected state after `connect`/`open` on socket 0,
sending the string `"ping"` writes it verbatim to transport 0 and changes
nothing. -/
theorem send_connected_behavior_app :
    ∃ g, (runEvents cfgW [.connect true, .wsOpen 0] initState).hook.wsCurrent =
        some g ∧
      step cfgW (.send (.str "ping") false)
          (runEvents cfgW [.connect true, .wsOpen 0] initState) =
        (runEvents cfgW [.connect true, .wsOpen 0] initState,
         [Output.wsSend g "ping"]) := by
  have hreach : Reachable cfgW (runEvents cfgW [.connect true, .wsOpen 0] initState) :=
    Relation.ReflTransGen.tail
      (Relation.ReflTransGen.tail Relation.ReflTransGen.refl ⟨.connect true, rfl⟩)
      ⟨.wsOpen 0, rfl⟩
  obtain ⟨g, hwc, hstr, _, _, _⟩ :=
    send_connected_behavior cfgW _ hreach rfl rfl
  exact ⟨g, hwc, hstr "ping"⟩

/-! ## C5 — disconnect clears only the referenced timer; stale callbacks and leaked timers survive -/

/-- State after connect, open and an explicit `disconnect()`: no transport
referenced, but socket 0 (now closing) still has its handlers installed. -/
def c5state : SysState :=
  runEvents cfgW [.connect true, .wsOpen 0, .disconnect] initState

/-- C5 counterexample: after `disconnect()` the superseded transport 0 still
delivers its close event to the consumer — `onClose` fires — and, because the
close is abnormal and `disconnect()` reset the retry counter, the handler even
schedules an automatic reconnect.  This contradicts the claim that all
callbacks from the outgoing transport instance are suppressed once
`disconnect()` is called. -/
theorem stale_close_after_disconnect :
    c5state.hook.connectionStatus = .disconnected ∧
    c5state.hook.reconnectPending = false ∧
    (step cfgW (.wsClose 0 false) c5state).2 = [Output.cbClose false] ∧
    (step cfgW (.wsClose 0 false) c5state).1.hook.reconnectPending = true :=
  ⟨rfl, rfl, rfl, rfl⟩

/-- The close command issued by `disconnect()` never flips a socket's
`closeFired` flag nor removes it from the world. -/
theorem closeCurrentSocks_closeFired (s : SysState) (g : Nat) (st : SockState)
    (hg : s.socks g = some st) :
    ∃ st', closeCurrentSocks s g = some st' ∧ st'.closeFired = st.closeFired := by
  cases hwc : s.hook.wsCurrent with
  | none =>
    refine ⟨st, ?_, rfl⟩
    simp only [closeCurrentSocks, hwc]
    exact hg
  | some g0 =>
    cases hg0 : s.socks g0 with
    | none =>
      refine ⟨st, ?_, rfl⟩
      simp only [closeCurrentSocks, hwc, hg0]
      exact hg
    | some st0 =>
      by_cases hgg : g = g0
      · subst hgg
        have hst : st0 = st := Option.some.inj (hg0.symm.trans hg)
        subst hst
        refine ⟨⟨closeRS st0.readyState, st0.closeFired⟩, ?_, rfl⟩
        simp [closeCurrentSocks, hwc, hg0, setSock_apply]
      · refine ⟨st, ?_, rfl⟩
        simp only [closeCurrentSocks, hwc, hg0, setSock_apply]
        rw [if_neg hgg]
        exact hg

/-- C5 (amended): `disconnect()` cancels only the retry timer its ref still
points at (line 160–163 clear the referenced handle) and leaves every leaked
timer armed: the count of leaked timers is unchanged across `disconnect()`,
and a surviving leaked timer later fires `connect()`, driving the hook back to
Connecting.  Nor are callbacks of the superseded transport suppressed: while
the component stays mounted, a socket whose close event has not yet fired
still delivers `onClose` to the consumer after the `disconnect()`. -/
theorem disconnect_cancels_timer (cfg : Config) (s : SysState) (g : Nat)
    (st : SockState) (hm : s.hook.isMounted = true)
    (hg : s.socks g = some st) (hcf : st.closeFired = false) :
    (stepS cfg .disconnect s).hook.reconnectPending = false ∧
    (stepS cfg .disconnect s).leakedTimers = s.leakedTimers ∧
    (∀ wc, (step cfg (.wsClose g wc) (stepS cfg .disconnect s)).2 =
      [Output.cbClose wc]) ∧
    (Reachable cfgW leakState ∧
      leakState.leakedTimers = 1 ∧
      (stepS cfgW .disconnect leakState).hook.reconnectPending = false ∧
      (stepS cfgW .disconnect leakState).leakedTimers = 1 ∧
      (runEvents cfgW [.disconnect, .leakedTimerFire true]
          leakState).hook.connectionStatus = .connecting) := by
  refine ⟨rfl, rfl, ?_, ?_, rfl, rfl, rfl, rfl⟩
  · intro wc
    obtain ⟨st', hst', hcf'⟩ := closeCurrentSocks_closeFired s g st hg
    rw [hcf] at hcf'
    simp [step, stepS, disconnect, onclose, hst', hcf', hm]
    split <;> rfl
  · exact reachable_run cfgW initState Relation.ReflTransGen.refl
      [.connect true, .disconnect, .connect true, .disconnect,
        .wsClose 0 false, .wsClose 1 false]

/-- C5 witness: connect (socket 0), then `disconnect()`; the timer ref is
clear, no leaked timers appear, and the stale socket's clean close still
produces an `onClose` callback. -/
theorem disconnect_cancels_timer_app :
    (stepS cfgW .disconnect (runEvents cfgW [.connect true] initState)
      ).hook.reconnectPending = false ∧
    (step cfgW (.wsClose 0 true)
        (stepS cfgW .disconnect (runEvents cfgW [.connect true] initState))).2 =
      [Output.cbClose true] := by
  have h := disconnect_cancels_timer cfgW
    (runEvents cfgW [.connect true] initState) 0 ⟨.connecting, false⟩ rfl rfl rfl
  exact ⟨h.1, h.2.2.1 true⟩

/-! ## C6 — abnormal close from Connected -/

/-- Connected state under the zero-budget configuration: the retry budget is
already exhausted when the abnormal close arrives. -/
def c6state : SysState := runEvents cfgMax0 [.connect true, .wsOpen 0] initState

/-- C6 counterexample: with the retry counter already at the configured
maximum (budget 0), an abnormal close from Connected still transitions the
status to Error — not to Disconnected as the claim requires — while correctly
scheduling no retry. -/
theorem abnormal_close_error_when_exhausted :
    c6state.hook.connectionStatus = .connected ∧
    c6state.hook.reconnectCount = cfgMax0.reconnectAttempts ∧
    (stepS cfgMax0 (.wsClose 0 false) c6state).hook.connectionStatus = .error ∧
    (stepS cfgMax0 (.wsClose 0 false) c6state).hook.connectionStatus ≠
      .disconnected ∧
    (stepS cfgMax0 (.wsClose 0 false) c6state).hook.reconnectPending = false :=
  ⟨rfl, rfl, rfl, fun h => ConnStatus.noConfusion h, rfl⟩

/-- C6 (amended): an abnormal close (`wasClean = false`) delivered while the
hook is mounted and Connected always transitions the status to Error and sets
the `'Connection lost unexpectedly'` error, regardless of the retry budget;
the budget only decides whether a reconnect is scheduled (counter incremented
and timer armed when below the maximum, both untouched once it is reached). -/
theorem abnormal_close_always_error (cfg : Config) (s : SysState) (g : Nat)
    (st : SockState) (hm : s.hook.isMounted = true)
    (_hst : s.hook.connectionStatus = .connected)
    (hg : s.socks g = some st) (hcf : st.closeFired = false) :
    (stepS cfg (.wsClose g false) s).hook.connectionStatus = .error ∧
    (stepS cfg (.wsClose g false) s).hook.error =
      some "Connection lost unexpectedly" ∧
    (s.hook.reconnectCount < cfg.reconnectAttempts →
      (stepS cfg (.wsClose g false) s).hook.reconnectPending = true ∧
      (stepS cfg (.wsClose g false) s).hook.reconnectCount =
        s.hook.reconnectCount + 1) ∧
    (cfg.reconnectAttempts ≤ s.hook.reconnectCount →
      (stepS cfg (.wsClose g false) s).hook.reconnectPending =
        s.hook.reconnectPending ∧
      (stepS cfg (.wsClose g false) s).hook.reconnectCount =
        s.hook.reconnectCount) := by
  have hcf' : (!st.closeFired) = true := by rw [hcf]; rfl
  by_cases hrc : s.hook.reconnectCount < cfg.reconnectAttempts
  · have he : stepS cfg (.wsClose g false) s =
        { s with
          hook := { s.hook with
            isConnected := false
            isConnecting := false
            connectionStatus := .error
            error := some "Connection lost unexpectedly"
            reconnectCount := s.hook.reconnectCount + 1
            reconnectPending := true }
          socks := setSock s.socks g ⟨.closed, true⟩
          leakedTimers := leakIfArmed s } := by
      simp [stepS, step, onclose, hg, hcf', hm, hrc]
    rw [he]
    exact ⟨rfl, rfl, fun _ => ⟨rfl, rfl⟩, fun hle => absurd hrc (by omega)⟩
  · have he : stepS cfg (.wsClose g false) s =
        { s with
          hook := { s.hook with
            isConnected := false
            isConnecting := false
            connectionStatus := .error
            error := some "Connection lost unexpectedly" }
          socks := setSock s.socks g ⟨.closed, true⟩ } := by
      simp [stepS, step, onclose, hg, hcf', hm, hrc]
    rw [he]
    exact ⟨rfl, rfl, fun hlt => absurd hlt hrc, fun _ => ⟨rfl, rfl⟩⟩

/-- C6 witness: in the Connected state (budget 3, counter 0), an abnormal
close on the live socket yields status Error with a retry scheduled. -/
theorem abnormal_close_always_error_app :
    (stepS cfgW (.wsClose 0 false)
        (runEvents cfgW [.connect true, .wsOpen 0] initState)
      ).hook.connectionStatus = .error ∧
    (stepS cfgW (.wsClose 0 false)
        (runEvents cfgW [.connect true, .wsOpen 0] initState)
      ).hook.reconnectPending = true := by
  have h := abnormal_close_always_error cfgW
    (runEvents cfgW [.connect true, .wsOpen 0] initState) 0 ⟨.opened, false⟩
    rfl rfl rfl rfl
  exact ⟨h.1, (h.2.2.1 (by decide)).1⟩

/-! ## C2 — malformed inbound frames -/

/-- Connected state holding open socket 0: the standard context in which
inbound frames arrive. -/
def sOpen : SysState := runEvents cfgW [.connect true, .wsOpen 0] initState

/-- C2 counterexample: the frame with text `"null"` parses as JSON `null`, so
it fails to parse as the expected structured format; yet no Message is
delivered for it at all — the handler's property access throws, the outer
catch swallows the exception, and the frame is dropped (state and outputs
unchanged) — contradicting "exactly one Message is still delivered". -/
theorem null_frame_dropped :
    sOpen.hook.lastMessage = none ∧
    step cfgW (.wsMessage 0 ⟨"null", some JsonVal.null⟩ "T0") sOpen =
      (sOpen, []) :=
  ⟨rfl, rfl⟩

/-- A frame whose text `JSON.parse` rejects is wrapped into the generic
structure; for non-empty text the assembled message carries the default
`'message'` tag, the raw text and the receipt time. -/
theorem processFrame_malformed (now : String) (f : Frame) (hp : f.parsed = none)
    (hne : f.text ≠ "") :
    processFrame now f = some ⟨.str "message", .str f.text, .str now⟩ := by
  have hb : (f.text != "") = true := by simp [hne]
  simp [processFrame, hp, getField, lookupField, jsOrD, truthy, hb]

/-- C2 (amended): every inbound frame whose text fails JSON parsing and is
non-empty is delivered as exactly one Message — type tag defaulted to
`'message'`, payload the raw frame text, timestamp the receipt time — without
error and without any other state change.  (The original claim fails in two
edge cases: a frame parsing to JSON `null` is dropped, and the empty
unparseable frame is delivered with the wrapper object, not `""`, as payload,
because the `||` defaulting treats the empty string as falsy.) -/
theorem malformed_frame_delivery (cfg : Config) (s : SysState) (g : Nat)
    (st : SockState) (f : Frame) (now : String)
    (hm : s.hook.isMounted = true) (hg : s.socks g = some st)
    (hrs : st.readyState = .opened) (hp : f.parsed = none) (hne : f.text ≠ "") :
    step cfg (.wsMessage g f now) s =
      ({ s with hook := { s.hook with
            lastMessage := some ⟨.str "message", .str f.text, .str now⟩ } },
       [Output.cbMessage ⟨.str "message", .str f.text, .str now⟩]) := by
  have hpf := processFrame_malformed now f hp hne
  simp [step, onmessage, hg, hrs, hm, hpf]

/-- C2 witness: the plain-text frame `"line1"` received on open socket 0 is
delivered once, with the default tag and the raw text as payload. -/
theorem malformed_frame_delivery_app :
    (step cfgW (.wsMessage 0 ⟨"line1", none⟩ "T0") sOpen).2 =
      [Output.cbMessage ⟨.str "message", .str "line1", .str "T0"⟩] :=
  congrArg Prod.snd
    (malformed_frame_delivery cfgW sOpen 0 ⟨.opened, false⟩ ⟨"line1", none⟩
      "T0" rfl rfl rfl rfl (by decide))

/-! ## C8 — structured inbound frames -/

/-- A structured frame whose `type` field is the empty string — carried by the
frame, but falsy. -/
def c8frame : Frame :=
  ⟨"\x7b\x22type\x22:\x22\x22,\x22data\x22:\x22x\x22,\x22timestamp\x22:\x22T\x22\x7d",
   some (.obj [("type", .str ""), ("data", .str "x"), ("timestamp", .str "T")])⟩

/-- C8 counterexample: a frame that parses as a structured object carrying
`type`, `data` and `timestamp` fields is NOT always delivered verbatim — with
`type = ""` the delivered message substitutes the default `'message'` tag for
the carried (falsy) value, contradicting "without substituting defaults". -/
theorem falsy_type_defaulted :
    c8frame.parsed = some (.obj [("type", .str ""), ("data", .str "x"),
      ("timestamp", .str "T")]) ∧
    (step cfgW (.wsMessage 0 c8frame "R") sOpen).2 =
      [Output.cbMessage ⟨.str "message", .str "x", .str "T"⟩] ∧
    JsonVal.str "message" ≠ JsonVal.str "" :=
  ⟨rfl, rfl, by simp⟩

/-- C8 (amended): a frame parsing to a structured object whose `type`, `data`
and `timestamp` field values are all truthy is delivered with those three
values verbatim (no defaults substituted); when a carried field value is falsy
(`""`, `0`, `false`, `null`), the `||` defaulting replaces it — the type tag
by `'message'`, the payload by the whole parsed object, the timestamp by the
receipt time. -/
theorem structured_frame_verbatim (cfg : Config) (s : SysState) (g : Nat)
    (st : SockState) (f : Frame) (now : String) (v t d ts : JsonVal)
    (hm : s.hook.isMounted = true) (hg : s.socks g = some st)
    (hrs : st.readyState = .opened) (hp : f.parsed = some v)
    (ht : getField v "type" = some t) (htt : truthy t = true)
    (hd : getField v "data" = some d) (htd : truthy d = true)
    (hts : getField v "timestamp" = some ts) (htts : truthy ts = true) :
    step cfg (.wsMessage g f now) s =
      ({ s with hook := { s.hook with lastMessage := some ⟨t, d, ts⟩ } },
       [Output.cbMessage ⟨t, d, ts⟩]) := by
  have hpf : processFrame now f = some ⟨t, d, ts⟩ := by
    cases v with
    | null => simp [getField] at ht
    | bool b => simp [getField] at ht
    | num n => simp [getField] at ht
    | str u => simp [getField] at ht
    | arr xs => simp [getField] at ht
    | obj fs =>
      simp [processFrame, hp, jsOrD, ht, hd, hts, htt, htd, htts]
  simp [step, onmessage, hg, hrs, hm, hpf]

/-- C8 witness: the frame from the spec's example scenario,
`‹type:"log", data:"line2"› plus a timestamp`, is delivered verbatim. -/
theorem structured_frame_verbatim_app :
    (step cfgW
        (.wsMessage 0
          ⟨"\x7b\x22type\x22:\x22log\x22,\x22data\x22:\x22line2\x22,\x22timestamp\x22:\x22T1\x22\x7d",
           some (.obj [("type", .str "log"), ("data", .str "line2"),
             ("timestamp", .str "T1")])⟩ "R") sOpen).2 =
      [Output.cbMessage ⟨.str "log", .str "line2", .str "T1"⟩] :=
  congrArg Prod.snd
    (structured_frame_verbatim cfgW sOpen 0 ⟨.opened, false⟩ _ "R"
      (.obj [("type", .str "log"), ("data", .str "line2"),
        ("timestamp", .str "T1")])
      (.str "log") (.str "line2") (.str "T1")
      rfl rfl rfl rfl rfl (by decide) rfl (by decide) rfl (by decide))

/-! ## C3 — bounded retry -/

/-- No socket in the world is still in the `CONNECTING` phase. -/
def NoConnectingSock (s : SysState) : Prop :=
  ∀ g st, s.socks g = some st → st.readyState ≠ .connecting

/-- The situation after the retry budget is exhausted: counter at (or past)
the configured maximum, no retry timer armed — neither the referenced one nor
any leaked one — not in the Connecting state and no connection attempt in
flight. -/
structure RetryExhausted (cfg : Config) (s : SysState) : Prop where
  count_ge : cfg.reconnectAttempts ≤ s.hook.reconnectCount
  no_timer : s.hook.reconnectPending = false
  not_connecting : s.hook.connectionStatus ≠ .connecting
  no_conn_sock : NoConnectingSock s
  no_leaked : s.leakedTimers = 0

theorem exhausted_step (cfg : Config) (e : Event) (s : SysState)
    (hex : RetryExhausted cfg s) (he : e.consumerCall = false) :
    RetryExhausted cfg (stepS cfg e s) := by
  cases e with
  | connect ok => simp [Event.consumerCall] at he
  | disconnect => simp [Event.consumerCall] at he
  | send m thr =>
    by_cases hop : currentOpen s = true
    · cases thr
      · cases hwc : s.hook.wsCurrent with
        | none =>
          have h1 : stepS cfg (.send m false) s = s := by
            simp [stepS, step, sendMessage, hop, hwc]
          rw [h1]
          exact hex
        | some g =>
          have h1 : stepS cfg (.send m false) s = s := by
            simp [stepS, step, sendMessage, hop, hwc]
          rw [h1]
          exact hex
      · have h1 : stepS cfg (.send m true) s =
            { s with hook := { s.hook with
                error := some "Failed to send message" } } := by
          simp [stepS, step, sendMessage, hop]
        rw [h1]
        exact ⟨hex.count_ge, hex.no_timer, hex.not_connecting, hex.no_conn_sock,
        hex.no_leaked⟩
    · have hop' : currentOpen s = false := Bool.not_eq_true _ |>.mp hop
      have h1 : stepS cfg (.send m thr) s =
          { s with hook := { s.hook with
              error := some "Cannot send message: not connected" } } := by
        simp [stepS, step, sendMessage, hop']
      rw [h1]
      exact ⟨hex.count_ge, hex.no_timer, hex.not_connecting, hex.no_conn_sock,
        hex.no_leaked⟩
  | wsOpen g =>
    cases hg : s.socks g with
    | none =>
      have h1 : stepS cfg (.wsOpen g) s = s := by simp [stepS, step, onopen, hg]
      rw [h1]
      exact hex
    | some st =>
      have hb : (st.readyState == ReadyState.connecting) = false := by
        simp [hex.no_conn_sock g st hg]
      have h1 : stepS cfg (.wsOpen g) s = s := by
        simp [stepS, step, onopen, hg, hb]
      rw [h1]
      exact hex
  | wsMessage g f now =>
    cases hg : s.socks g with
    | none =>
      have h1 : stepS cfg (.wsMessage g f now) s = s := by
        simp [stepS, step, onmessage, hg]
      rw [h1]
      exact hex
    | some st =>
      by_cases hgd : (st.readyState == ReadyState.opened && s.hook.isMounted) = true
      · cases hpf : processFrame now f with
        | none =>
          have h1 : stepS cfg (.wsMessage g f now) s = s := by
            simp [stepS, step, onmessage, hg, hgd, hpf]
          rw [h1]
          exact hex
        | some m =>
          have h1 : stepS cfg (.wsMessage g f now) s =
              { s with hook := { s.hook with lastMessage := some m } } := by
            simp [stepS, step, onmessage, hg, hgd, hpf]
          rw [h1]
          exact ⟨hex.count_ge, hex.no_timer, hex.not_connecting, hex.no_conn_sock,
        hex.no_leaked⟩
      · have h1 : stepS cfg (.wsMessage g f now) s = s := by
          simp [stepS, step, onmessage, hg, hgd]
        rw [h1]
        exact hex
  | wsError g =>
    cases hg : s.socks g with
    | none =>
      have h1 : stepS cfg (.wsError g) s = s := by simp [stepS, step, onerror, hg]
      rw [h1]
      exact hex
    | some st =>
      by_cases hgd : (st.readyState != ReadyState.closed && !st.closeFired) = true
      · have hnc : NoConnectingSock
            { s with socks := setSock s.socks g ⟨.closed, st.closeFired⟩ } := by
          intro g' st' hg'
          simp only [setSock_apply] at hg'
          by_cases hgg : g' = g
          · rw [if_pos hgg] at hg'
            have hst : st' = ⟨.closed, st.closeFired⟩ := (Option.some.inj hg').symm
            subst hst
            intro h
            exact ReadyState.noConfusion h
          · rw [if_neg hgg] at hg'
            exact hex.no_conn_sock g' st' hg'
        by_cases hm : s.hook.isMounted = true
        · have h1 : stepS cfg (.wsError g) s =
              { s with
                hook := { s.hook with
                  error := some "WebSocket connection error"
                  connectionStatus := .error
                  isConnecting := false }
                socks := setSock s.socks g ⟨.closed, st.closeFired⟩ } := by
            simp [stepS, step, onerror, hg, hgd, hm]
          rw [h1]
          exact ⟨hex.count_ge, hex.no_timer,
            fun h => ConnStatus.noConfusion h, hnc, hex.no_leaked⟩
        · have hm' : s.hook.isMounted = false := Bool.not_eq_true _ |>.mp hm
          have h1 : stepS cfg (.wsError g) s =
              { s with socks := setSock s.socks g ⟨.closed, st.closeFired⟩ } := by
            simp [stepS, step, onerror, hg, hgd, hm']
          rw [h1]
          exact ⟨hex.count_ge, hex.no_timer, hex.not_connecting, hnc, hex.no_leaked⟩
      · have h1 : stepS cfg (.wsError g) s = s := by
          simp [stepS, step, onerror, hg, hgd]
        rw [h1]
        exact hex
  | wsClose g wc =>
    cases hg : s.socks g with
    | none =>
      have h1 : stepS cfg (.wsClose g wc) s = s := by
        simp [stepS, step, onclose, hg]
      rw [h1]
      exact hex
    | some st =>
      by_cases hcf : (!st.closeFired) = true
      · have hnc : NoConnectingSock
            { s with socks := setSock s.socks g ⟨.closed, true⟩ } := by
          intro g' st' hg'
          simp only [setSock_apply] at hg'
          by_cases hgg : g' = g
          · rw [if_pos hgg] at hg'
            have hst : st' = ⟨.closed, true⟩ := (Option.some.inj hg').symm
            subst hst
            intro h
            exact ReadyState.noConfusion h
          · rw [if_neg hgg] at hg'
            exact hex.no_conn_sock g' st' hg'
        have hrc : ¬ s.hook.reconnectCount < cfg.reconnectAttempts := by
          have := hex.count_ge
          omega
        by_cases hm : s.hook.isMounted = true
        · cases wc with
          | true =>
            have h1 : stepS cfg (.wsClose g true) s =
                { s with
                  hook := { s.hook with
                    isConnected := false
                    isConnecting := false
                    connectionStatus := .disconnected }
                  socks := setSock s.socks g ⟨.closed, true⟩ } := by
              simp [stepS, step, onclose, hg, hcf, hm]
            rw [h1]
            exact ⟨hex.count_ge, hex.no_timer,
              fun h => ConnStatus.noConfusion h, hnc, hex.no_leaked⟩
          | false =>
            have h1 : stepS cfg (.wsClose g false) s =
                { s with
                  hook := { s.hook with
                    isConnected := false
                    isConnecting := false
                    connectionStatus := .error
                    error := some "Connection lost unexpectedly" }
                  socks := setSock s.socks g ⟨.closed, true⟩ } := by
              simp [stepS, step, onclose, hg, hcf, hm, hrc]
            rw [h1]
            exact ⟨hex.count_ge, hex.no_timer,
              fun h => ConnStatus.noConfusion h, hnc, hex.no_leaked⟩
        · have hm' : s.hook.isMounted = false := Bool.not_eq_true _ |>.mp hm
          have h1 : stepS cfg (.wsClose g wc) s =
              { s with socks := setSock s.socks g ⟨.closed, true⟩ } := by
            simp [stepS, step, onclose, hg, hcf, hm']
          rw [h1]
          exact ⟨hex.count_ge, hex.no_timer, hex.not_connecting, hnc, hex.no_leaked⟩
      · have h1 : stepS cfg (.wsClose g wc) s = s := by
          simp [stepS, step, onclose, hg, hcf]
        rw [h1]
        exact hex
  | timerFire ok =>
    have h1 : stepS cfg (.timerFire ok) s = s := by
      simp [stepS, step, timerFire, hex.no_timer]
    rw [h1]
    exact hex
  | leakedTimerFire ok =>
    have h1 : stepS cfg (.leakedTimerFire ok) s = s := by
      simp [stepS, step, WSHook.leakedTimerFire, hex.no_leaked]
    rw [h1]
    exact hex
  | unmount =>
    refine ⟨hex.count_ge, rfl, hex.not_connecting, ?_, hex.no_leaked⟩
    intro g st hg hc
    have h := closeCurrentSocks_live s g st hg (Or.inl hc)
    exact hex.no_conn_sock g st h.1 hc

/-- C3 (amended): once the retry budget is exhausted (counter at the maximum,
no timer pending — neither the referenced one nor any leaked one — and no
attempt in flight), no sequence of transport events,
message deliveries, sends, timer callbacks or unmounts — that is, anything
except a consumer `connect()` or `disconnect()` call — can ever bring the
connection back to the Connecting state or arm a retry timer.  (The original
claim, which only excludes `connect()`, fails: a `disconnect()` resets the
retry counter to zero, after which an abnormal close event from a stale
superseded socket re-arms the automatic reconnect.) -/
theorem bounded_retry (cfg : Config) (s : SysState) (es : List Event)
    (hex : RetryExhausted cfg s)
    (he : ∀ e ∈ es, e.consumerCall = false) :
    (runEvents cfg es s).hook.connectionStatus ≠ .connecting ∧
    (runEvents cfg es s).hook.reconnectPending = false := by
  induction es generalizing s with
  | nil => exact ⟨hex.not_connecting, hex.no_timer⟩
  | cons e es ih =>
    have h1 := exhausted_step cfg e s hex (he e (by simp))
    exact ih (stepS cfg e s) h1 (fun e' he' => he e' (by simp [he']))

/-- C3 witness: under the zero-budget configuration the initial state is
already exhausted; an abnormal close followed by a timer callback (no
consumer call) leaves the connection out of Connecting with no timer armed. -/
theorem bounded_retry_app :
    (runEvents cfgMax0 [.wsClose 0 false, .timerFire true] initState
      ).hook.connectionStatus ≠ .connecting ∧
    (runEvents cfgMax0 [.wsClose 0 false, .timerFire true] initState
      ).hook.reconnectPending = false := by
  refine bounded_retry cfgMax0 initState _ ⟨?_, rfl, ?_, ?_, rfl⟩ ?_
  · decide
  · intro h
    exact ConnStatus.noConfusion h
  · intro g st h
    exact Option.noConfusion h
  · decide

/-- C3 counterexample trace, budget 1: a first attempt is cancelled by
`disconnect()` while still connecting (socket 0 stays in CLOSING with its
close event pending), a second attempt connects and then exhausts the budget
(sockets 1 and 2 fail abnormally). -/
def c3exh : SysState :=
  runEvents cfgMax1
    [.connect true, .disconnect, .connect true, .wsOpen 1, .wsClose 1 false,
     .timerFire true, .wsClose 2 false] initState

/-- C3 counterexample: `c3exh` is a reachable exhausted state (counter at the
maximum, no timer, status Error); yet the subsequent consumer-`connect()`-free
event sequence `disconnect(); stale abnormal close of socket 0; timer` puts
the connection back into Connecting — the `disconnect()` resets the retry
counter, the stale socket's close handler then schedules a reconnect, and the
timer fires it.  This contradicts "once the bound is exceeded, no further
Connecting transition occurs until the consumer explicitly calls connect()
again". -/
theorem reconnect_after_exhaustion :
    cfgMax1.reconnectAttempts ≤ c3exh.hook.reconnectCount ∧
    c3exh.hook.reconnectPending = false ∧
    c3exh.hook.connectionStatus = .error ∧
    (∀ e ∈ ([.disconnect, .wsClose 0 false, .timerFire true] : List Event),
      e.isConnect = false) ∧
    (runEvents cfgMax1 [.disconnect, .wsClose 0 false, .timerFire true] c3exh
      ).hook.connectionStatus = .connecting :=
  ⟨by decide, rfl, rfl, by decide, rfl⟩
